import Mathlib

set_option maxRecDepth 16384

/-!
Verification development for the solana-arbitrage-watcher repository.

The Rust sources are shallowly embedded: pure functions become Lean
functions, fallible functions return `Except`, machine integers become
`Nat` (with explicit saturation where the source saturates), and `f64`
values are modelled exactly as extended rationals (`F64v` below): the
rational value when finite, plus the three IEEE special shapes.  No
rounding and no overflow are modelled; every claim checked here either
quantifies over exact values or fixes concrete inputs whose Rust
computations are exact in double precision.
-/

/-- Model of an `f64` value: a finite value is an exact rational; the
special shapes `inf`, `ninf` (negative infinity) and `nan` are kept so
that the finiteness checks in the source can be stated faithfully.
Signed zero is not distinguished. -/
inductive F64v where
  | fin (q : ℚ)
  | inf
  | ninf
  | nan
deriving DecidableEq, Repr

namespace F64v

/-- `f64::is_finite`. -/
def isFinite : F64v → Bool
  | fin _ => true
  | _ => false

/-- IEEE `<` as a boolean: any comparison with NaN is false. -/
def ltb : F64v → F64v → Bool
  | fin a, fin b => a < b
  | fin _, inf => true
  | ninf, fin _ => true
  | ninf, inf => true
  | _, _ => false

/-- IEEE `<=` as a boolean: any comparison with NaN is false. -/
def leb : F64v → F64v → Bool
  | fin a, fin b => a ≤ b
  | fin _, inf => true
  | ninf, fin _ => true
  | ninf, inf => true
  | inf, inf => true
  | ninf, ninf => true
  | _, _ => false

/-- IEEE negation. -/
def neg : F64v → F64v
  | fin a => fin (-a)
  | inf => ninf
  | ninf => inf
  | nan => nan

/-- IEEE addition on the exact model (`inf + ninf = nan`). -/
def add : F64v → F64v → F64v
  | fin a, fin b => fin (a + b)
  | fin _, inf => inf
  | fin _, ninf => ninf
  | inf, fin _ => inf
  | ninf, fin _ => ninf
  | inf, inf => inf
  | ninf, ninf => ninf
  | inf, ninf => nan
  | ninf, inf => nan
  | _, _ => nan

/-- IEEE subtraction, defined as in hardware via negation. -/
def sub (a b : F64v) : F64v := add a (neg b)

/-- IEEE multiplication (`inf * 0 = nan`). -/
def mul : F64v → F64v → F64v
  | fin a, fin b => fin (a * b)
  | fin a, inf => if a = 0 then nan else if 0 < a then inf else ninf
  | fin a, ninf => if a = 0 then nan else if 0 < a then ninf else inf
  | inf, fin b => if b = 0 then nan else if 0 < b then inf else ninf
  | ninf, fin b => if b = 0 then nan else if 0 < b then ninf else inf
  | inf, inf => inf
  | ninf, ninf => inf
  | inf, ninf => ninf
  | ninf, inf => ninf
  | _, _ => nan

/-- IEEE division on the exact model.  Division of a nonzero finite
value by zero yields an infinity by the numerator's sign (signed zero
is not modelled); `0 / 0`, `inf / inf` yield NaN. -/
def div : F64v → F64v → F64v
  | fin a, fin b =>
      if b = 0 then
        if a = 0 then nan else if 0 < a then inf else ninf
      else fin (a / b)
  | fin _, inf => fin 0
  | fin _, ninf => fin 0
  | inf, fin b => if 0 ≤ b then inf else ninf
  | ninf, fin b => if 0 ≤ b then ninf else inf
  | _, _ => nan

/-- IEEE absolute value. -/
def abs : F64v → F64v
  | fin a => fin |a|
  | inf => inf
  | ninf => inf
  | nan => nan

end F64v

/-- `PriceSource` (src/price/types.rs): venue a price came from. -/
inductive PriceSource where
  | solana
  | binance
deriving DecidableEq, Repr

/-- `TradingPair` (src/config.rs): supported symbols. -/
inductive TradingPair where
  | solUsdt
  | solUsdc
deriving DecidableEq, Repr

/-- `TradingFees` (src/arbitrage/calculator.rs): platform fees. -/
structure TradingFees where
  binance_spot_fee : F64v
  solana_dex_fee : F64v
  solana_gas_fee : F64v
  transfer_fee : F64v
deriving DecidableEq, Repr

/-- `TradingFees::default`: 0.1% CEX, 0.25% DEX, 0.001 SOL gas, no
transfer fee. -/
def TradingFees.default : TradingFees :=
  { binance_spot_fee := .fin (1/10)
    solana_dex_fee := .fin (1/4)
    solana_gas_fee := .fin (1/1000)
    transfer_fee := .fin 0 }

/-- `TradingFees::get_trading_fee`. -/
def TradingFees.get_trading_fee (f : TradingFees) : PriceSource → F64v
  | .binance => f.binance_spot_fee
  | .solana => f.solana_dex_fee

/-- `SourcePrice` (src/price/types.rs): store cell payload.  The
`timestamp` is a wall-clock instant in nanoseconds since the epoch. -/
structure SourcePrice where
  price : F64v
  source : PriceSource
  timestamp : Nat
deriving DecidableEq, Repr

/-- `ValidatedPricePair` (src/price/processor.rs). -/
structure ValidatedPricePair where
  solana_price : SourcePrice
  binance_price : SourcePrice
  price_spread : F64v
  price_spread_percentage : F64v
deriving DecidableEq, Repr

/-- `ValidatedPricePair::new`: spread is the absolute difference, the
spread percentage is normalised by the Binance price. -/
def ValidatedPricePair.new (solana_price binance_price : SourcePrice) :
    ValidatedPricePair :=
  let price_spread := (solana_price.price.sub binance_price.price).abs
  { solana_price
    binance_price
    price_spread
    price_spread_percentage :=
      (price_spread.div binance_price.price).mul (.fin 100) }

/-- `ValidatedPricePair::get_price`. -/
def ValidatedPricePair.get_price (p : ValidatedPricePair) :
    PriceSource → SourcePrice
  | .solana => p.solana_price
  | .binance => p.binance_price

/-- `ArbitrageOpportunity` (src/arbitrage/calculator.rs). -/
structure ArbitrageOpportunity where
  buy_source : PriceSource
  sell_source : PriceSource
  buy_price : F64v
  sell_price : F64v
  raw_profit_per_unit : F64v
  net_profit_per_unit : F64v
  profit_percentage : F64v
  total_fees_per_unit : F64v
  trading_pair : TradingPair
  recommended_amount : F64v
  estimated_total_profit : F64v
deriving DecidableEq, Repr

/-- `CalculatorError` (src/arbitrage/calculator.rs). -/
inductive CalculatorError where
  | invalidTradingPair
  | invalidPriceData
  | invalidFeePercentage (f : F64v)
  | invalidTradeAmount (a : F64v)
deriving DecidableEq, Repr

/-- `FeeCalculator` (src/arbitrage/calculator.rs). -/
structure FeeCalculator where
  trading_fees : TradingFees
  default_trade_amount : F64v
deriving DecidableEq, Repr

/-- `FeeCalculator::default`: default fees and 10 SOL. -/
def FeeCalculator.default : FeeCalculator :=
  { trading_fees := TradingFees.default, default_trade_amount := .fin 10 }

/-- `FeeCalculator::calculate_fee_breakdown`: returns
`(per_unit_fees, per_trade_fees)`.  The gas fee is flat per trade and
is converted through the price of the Solana-side leg. -/
def FeeCalculator.calculate_fee_breakdown (c : FeeCalculator)
    (buy_price sell_price : F64v) (buy_source sell_source : PriceSource) :
    F64v × F64v :=
  let buy_fee_percentage := (c.trading_fees.get_trading_fee buy_source).div (.fin 100)
  let buy_fee := buy_price.mul buy_fee_percentage
  let sell_fee_percentage := (c.trading_fees.get_trading_fee sell_source).div (.fin 100)
  let sell_fee := sell_price.mul sell_fee_percentage
  let transfer_fee :=
    if buy_source ≠ sell_source then c.trading_fees.transfer_fee else .fin 0
  let gas_fee_usd_total :=
    if buy_source = PriceSource.solana ∨ sell_source = PriceSource.solana then
      let sol_price :=
        if buy_source = PriceSource.solana then buy_price else sell_price
      c.trading_fees.solana_gas_fee.mul sol_price
    else .fin 0
  ((buy_fee.add sell_fee).add transfer_fee, gas_fee_usd_total)

/-- `FeeCalculator::calculate_recommended_amount`. -/
def FeeCalculator.calculate_recommended_amount (c : FeeCalculator)
    (net_profit_per_unit : F64v) : F64v :=
  if F64v.ltb (.fin 0) net_profit_per_unit then c.default_trade_amount
  else .fin 1

/-- `FeeCalculator::calculate_opportunity`: the lower-priced venue is
bought (Binance on exact tie), `None` when the raw spread is not
positive, otherwise the fee-adjusted opportunity record. -/
def FeeCalculator.calculate_opportunity (c : FeeCalculator)
    (prices : ValidatedPricePair) (trading_pair : TradingPair) :
    Except CalculatorError (Option ArbitrageOpportunity) :=
  let sources :=
    if F64v.ltb prices.solana_price.price prices.binance_price.price then
      (PriceSource.solana, PriceSource.binance)
    else
      (PriceSource.binance, PriceSource.solana)
  let buy_source := sources.1
  let sell_source := sources.2
  let buy_price := (prices.get_price buy_source).price
  let sell_price := (prices.get_price sell_source).price
  let raw_profit_per_unit := sell_price.sub buy_price
  if F64v.leb raw_profit_per_unit (.fin 0) then
    .ok none
  else
    let fees := c.calculate_fee_breakdown buy_price sell_price buy_source sell_source
    let per_unit_fees := fees.1
    let per_trade_fees := fees.2
    let net_profit_per_unit :=
      (raw_profit_per_unit.sub per_unit_fees).sub
        (per_trade_fees.div c.default_trade_amount)
    let profit_percentage := (net_profit_per_unit.div buy_price).mul (.fin 100)
    let recommended_amount := c.calculate_recommended_amount net_profit_per_unit
    let estimated_total_profit :=
      ((raw_profit_per_unit.sub per_unit_fees).mul recommended_amount).sub
        per_trade_fees
    let total_fees_per_unit :=
      per_unit_fees.add (per_trade_fees.div c.default_trade_amount)
    .ok (some
      { buy_source
        sell_source
        buy_price
        sell_price
        raw_profit_per_unit
        net_profit_per_unit
        profit_percentage
        total_fees_per_unit
        trading_pair
        recommended_amount
        estimated_total_profit })

/-- `u64::MAX`. -/
def u64Max : Nat := 2 ^ 64 - 1

/-- `calculate_age_ms` (src/price/types.rs): age of a timestamp in
milliseconds.  Instants are nanoseconds since the epoch; a timestamp in
the future yields the zero duration (`unwrap_or_default`), and an age
that does not fit `u64` saturates (`unwrap_or(u64::MAX)`). -/
def calculate_age_ms (now timestamp : Nat) : Nat :=
  let millis := (if timestamp ≤ now then now - timestamp else 0) / 1000000
  if millis ≤ u64Max then millis else u64Max

/-- `SourcePrice::age_ms`. -/
def SourcePrice.age_ms (p : SourcePrice) (now : Nat) : Nat :=
  calculate_age_ms now p.timestamp

/-- `SourcePrice::is_stale`. -/
def SourcePrice.is_stale (p : SourcePrice) (now max_age_ms : Nat) : Bool :=
  p.age_ms now > max_age_ms

/-- `PriceCache` (src/price/types.rs): the two coalescing slots (the
synchronisation wrapper is dropped; a snapshot is the pair of slots). -/
structure PriceCache where
  solana_price : Option SourcePrice
  binance_price : Option SourcePrice
deriving DecidableEq, Repr

/-- `PriceCache::get_both_prices`. -/
def PriceCache.get_both_prices (c : PriceCache) :
    Option (SourcePrice × SourcePrice) := do
  let s ← c.solana_price
  let b ← c.binance_price
  pure (s, b)

/-- `ProcessorError` (src/price/processor.rs). -/
inductive ProcessorError where
  | noFreshData
  | staleData (age_ms max_age_ms : Nat)
  | invalidPrice (price : F64v)
  | cacheLockError
deriving DecidableEq, Repr

/-- `PriceBounds` (src/config.rs): validated CLI price bounds. -/
structure PriceBounds where
  min_price : F64v
  max_price : F64v
deriving DecidableEq, Repr

/-- `Config` (src/config.rs), restricted to the fields the price
pipeline reads (providers, output format and API keys are irrelevant
to the claims and omitted). -/
structure Config where
  pair : TradingPair
  threshold : F64v
  max_price_age_ms : Nat
  price_bounds : PriceBounds
deriving DecidableEq, Repr

/-- `PriceProcessor` (src/price/processor.rs). -/
structure PriceProcessor where
  price_cache : PriceCache
  max_price_age : Nat
  validation_enabled : Bool
deriving DecidableEq, Repr

/-- `PriceProcessor::new`: reads only `max_price_age_ms` from the
configuration (in particular the configured `price_bounds` are not
consulted) and enables validation. -/
def PriceProcessor.new (price_cache : PriceCache) (config : Config) :
    PriceProcessor :=
  { price_cache
    max_price_age := config.max_price_age_ms
    validation_enabled := true }

/-- `PriceProcessor::validate_price_freshness`. -/
def PriceProcessor.validate_price_freshness (proc : PriceProcessor)
    (now : Nat) (price : SourcePrice) : Except ProcessorError Unit :=
  let age_ms := price.age_ms now
  let max_age_ms := proc.max_price_age
  if age_ms > max_age_ms then .error (.staleData age_ms max_age_ms)
  else .ok ()

/-- `PriceProcessor::validate_price_value`: non-finite or non-positive
prices are invalid, and so is anything outside the hard-coded range
`[1.0, 10000.0]`. -/
def PriceProcessor.validate_price_value (_proc : PriceProcessor)
    (price : SourcePrice) : Except ProcessorError Unit :=
  if !price.price.isFinite || price.price.leb (.fin 0) then
    .error (.invalidPrice price.price)
  else if price.price.ltb (.fin 1) || (F64v.fin 10000).ltb price.price then
    .error (.invalidPrice price.price)
  else .ok ()

/-- `PriceProcessor::get_validated_prices`. -/
def PriceProcessor.get_validated_prices (proc : PriceProcessor)
    (now : Nat) : Except ProcessorError ValidatedPricePair := do
  match proc.price_cache.get_both_prices with
  | none => .error .noFreshData
  | some (solana_price, binance_price) =>
    proc.validate_price_freshness now solana_price
    proc.validate_price_freshness now binance_price
    if proc.validation_enabled then
      proc.validate_price_value solana_price
      proc.validate_price_value binance_price
    .ok (ValidatedPricePair.new solana_price binance_price)

/-- `PriceUpdate` (src/price/types.rs).  `PriceUpdate::new` stamps the
current wall clock, made explicit as the `now` argument below. -/
structure PriceUpdate where
  source : PriceSource
  pair : TradingPair
  price : F64v
  timestamp : Nat
deriving DecidableEq, Repr

/-- `PriceUpdate::new`. -/
def PriceUpdate.new (source : PriceSource) (pair : TradingPair)
    (price : F64v) (now : Nat) : PriceUpdate :=
  { source, pair, price, timestamp := now }

/-- `SolanaError` (src/websocket/solana.rs).  External error payloads
(tungstenite, serde, url errors and durations) are dropped; only the
variant shape matters to the decoder. -/
inductive SolanaError where
  | connectionError
  | jsonError
  | urlError
  | timeout
  | reconnectFailed
  | invalidTradingPair (pair : TradingPair)
  | noProvidersAvailable
  | allProvidersFailed
  | invalidAccountData
  | poolParsingError (msg : String)
deriving DecidableEq, Repr

/-- Little-endian `u64` read of 8 bytes at `offset`, exactly as the
source assembles it with `u64::from_le_bytes` (bytes are `Nat`s below
256; missing indices default to 0, but every use is length-guarded as
in the source). -/
def readU64LE (data : List Nat) (offset : Nat) : Nat :=
  data.getD offset 0 +
  data.getD (offset + 1) 0 * 256 ^ 1 +
  data.getD (offset + 2) 0 * 256 ^ 2 +
  data.getD (offset + 3) 0 * 256 ^ 3 +
  data.getD (offset + 4) 0 * 256 ^ 4 +
  data.getD (offset + 5) 0 * 256 ^ 5 +
  data.getD (offset + 6) 0 * 256 ^ 6 +
  data.getD (offset + 7) 0 * 256 ^ 7

/-- `RaydiumPoolState` (src/websocket/solana.rs), restricted to the
fields the price path reads.  The full Borsh layout is 34 leading
`u64` fields (272 bytes), 13 `[u8; 32]` arrays (416 bytes), one
trailing `u64` and 7 padding bytes — 703 bytes in total; the fields
kept here sit at fixed little-endian offsets
0 (`status`), 32 (`base_decimals`), 40 (`quote_decimals`), 48
(`state`), 224 (`pool_base_token_amount`) and 232
(`pool_quote_token_amount`). -/
structure RaydiumPoolState where
  status : Nat
  base_decimals : Nat
  quote_decimals : Nat
  state : Nat
  pool_base_token_amount : Nat
  pool_quote_token_amount : Nat
deriving DecidableEq, Repr

/-- `RaydiumPoolState::try_from_slice` (Borsh): all fields are
fixed-size and `try_from_slice` rejects leftover bytes, so decoding
succeeds exactly when the input is the full 703-byte layout, and reads
each field at its offset. -/
def raydiumTryFromSlice (data : List Nat) : Option RaydiumPoolState :=
  if data.length = 703 then
    some
      { status := readU64LE data 0
        base_decimals := readU64LE data 32
        quote_decimals := readU64LE data 40
        state := readU64LE data 48
        pool_base_token_amount := readU64LE data 224
        pool_quote_token_amount := readU64LE data 232 }
  else none

/-- `RaydiumPoolState::is_active`: status 6 and state 1. -/
def RaydiumPoolState.is_active (s : RaydiumPoolState) : Bool :=
  s.status = 6 && s.state = 1

/-- `RaydiumPoolState::calculate_price`: reserves scaled by their
decimal exponents (the `u64 as i32` cast on the exponents is modelled
as the exact natural exponent; it only differs above 2^31 decimals). -/
def RaydiumPoolState.calculate_price (s : RaydiumPoolState) :
    Except SolanaError F64v :=
  if s.pool_base_token_amount = 0 then
    .error (.poolParsingError "Base token amount is zero")
  else
    let base_amount : ℚ := (s.pool_base_token_amount : ℚ) / 10 ^ s.base_decimals
    let quote_amount : ℚ := (s.pool_quote_token_amount : ℚ) / 10 ^ s.quote_decimals
    if base_amount = 0 then
      .error (.poolParsingError "Calculated base amount is zero")
    else
      .ok (.fin (quote_amount / base_amount))

/-- `SolanaClient::extract_price_from_raw_data`: tolerant fallback
that reads the reserves at offsets 232 and 240 with the pair's default
decimal convention (9/6) and keeps only prices inside `[10, 1000]`.
(The formatted price inside the last error message is not modelled.) -/
def extract_price_from_raw_data (trading_pair : TradingPair) (now : Nat)
    (data : List Nat) : Except SolanaError PriceUpdate :=
  if data.length < 400 then
    .error (.poolParsingError "Account data too short for pool state")
  else
    let base_amount_offset := 232
    let quote_amount_offset := 240
    if data.length < quote_amount_offset + 8 then
      .error (.poolParsingError "Insufficient data for token amounts")
    else
      let base_amount := readU64LE data base_amount_offset
      let quote_amount := readU64LE data quote_amount_offset
      if base_amount = 0 then
        .error (.poolParsingError "Base token amount is zero")
      else
        let base_decimals : Nat := 9
        let quote_decimals : Nat :=
          match trading_pair with
          | .solUsdt => 6
          | .solUsdc => 6
        let base_amount_f : ℚ := (base_amount : ℚ) / 10 ^ base_decimals
        let quote_amount_f : ℚ := (quote_amount : ℚ) / 10 ^ quote_decimals
        if base_amount_f = 0 then
          .error (.poolParsingError "Calculated base amount is zero")
        else
          let price : ℚ := quote_amount_f / base_amount_f
          if price < 10 ∨ price > 1000 then
            .error (.poolParsingError "Calculated price seems unreasonable")
          else
            .ok (PriceUpdate.new .solana trading_pair (.fin price) now)

/-- `SolanaClient::extract_price_from_account_data`, taken after the
notification plumbing: the argument is the base64-decoded account
blob.  Strict Borsh decode first; on failure the raw-offset fallback;
on success an inactive pool is an error, otherwise the pool price. -/
def extract_price_from_account_data (trading_pair : TradingPair)
    (now : Nat) (data : List Nat) : Except SolanaError PriceUpdate :=
  match raydiumTryFromSlice data with
  | none => extract_price_from_raw_data trading_pair now data
  | some pool_state =>
    if !pool_state.is_active then
      .error (.poolParsingError "Pool is not active")
    else do
      let price ← pool_state.calculate_price
      .ok (PriceUpdate.new .solana trading_pair price now)

/-- Little-endian byte serialisation of a `u64`
(`u64::to_le_bytes`). -/
def leBytes64 (n : Nat) : List Nat :=
  [n % 256, n / 256 ^ 1 % 256, n / 256 ^ 2 % 256, n / 256 ^ 3 % 256,
   n / 256 ^ 4 % 256, n / 256 ^ 5 % 256, n / 256 ^ 6 % 256, n / 256 ^ 7 % 256]

/-- The 400-byte fixture blob of the repository's fallback test: zeros
except the reserve amounts 10^15 (base, offset 232) and 2·10^14
(quote, offset 240). -/
def mockPoolData : List Nat :=
  List.replicate 232 0 ++ leBytes64 1000000000000000 ++
    leBytes64 200000000000000 ++ List.replicate 152 0

/-- `BinanceError` (src/websocket/binance.rs), payloads dropped. -/
inductive BinanceError where
  | connectionError
  | jsonError
  | urlError
  | timeout
  | reconnectFailed
  | invalidTradingPair (pair : TradingPair)
deriving DecidableEq, Repr

/-- `SubscribeMessage` (src/websocket/binance.rs). -/
structure SubscribeMessage where
  method : String
  params : List String
  id : Nat
deriving DecidableEq, Repr

/-- `TickerData` (src/websocket/binance.rs): the fields of one ticker
frame after JSON decoding (`s`, `c`, `E`). -/
structure TickerData where
  symbol : String
  price : String
  event_time : Nat
deriving DecidableEq, Repr

/-- `StreamData` (src/websocket/binance.rs). -/
structure StreamData where
  stream : String
  data : TickerData
deriving DecidableEq, Repr

/-- `BinanceClient::trading_pair_to_binance_symbol`. -/
def trading_pair_to_binance_symbol : TradingPair → String
  | .solUsdt => "SOLUSDT"
  | .solUsdc => "SOLUSDC"

/-- Model of `str::to_lowercase` by character (the symbols involved
are plain ASCII). -/
def stringToLower (s : String) : String :=
  ⟨s.data.map Char.toLower⟩

/-- `BinanceClient::create_subscribe_message`: the stream name is the
lowercased symbol with the `@ticker` suffix. -/
def create_subscribe_message (trading_pair : TradingPair) :
    SubscribeMessage :=
  let symbol := trading_pair_to_binance_symbol trading_pair
  let stream := stringToLower symbol ++ "@ticker"
  { method := "SUBSCRIBE", params := [stream], id := 1 }

/-- Digit-string value, or `none` on any non-digit character. -/
def decDigits? (cs : List Char) : Option Nat :=
  if cs.all Char.isDigit then
    some (cs.foldl (fun a c => a * 10 + (c.toNat - 48)) 0)
  else none

/-- Plain decimal part of the `f64::from_str` grammar: `digits`,
`digits.digits`, `digits.` or `.digits` (at least one digit). -/
def parseF64Decimal (cs : List Char) : Option F64v :=
  match cs.splitOn '.' with
  | [ip] =>
    if ip.isEmpty then none
    else (decDigits? ip).map fun n => .fin (n : ℚ)
  | [ip, fp] =>
    if ip.isEmpty && fp.isEmpty then none
    else
      match decDigits? ip, decDigits? fp with
      | some i, some f => some (.fin ((i : ℚ) + (f : ℚ) / 10 ^ fp.length))
      | _, _ => none
  | _ => none

/-- Model of Rust `<f64 as FromStr>::parse` on the sub-grammar the
claims exercise: optional sign, then `inf`/`infinity`/`nan`
(case-insensitive) or a plain decimal literal.  Exponents and the
rounding of decimal literals to binary are not modelled. -/
def parseF64 (s : String) : Option F64v :=
  match s.data with
  | [] => none
  | c :: rest =>
    let negSign := c = '-'
    let body := if c = '-' ∨ c = '+' then rest else c :: rest
    let lower := body.map Char.toLower
    if lower = "inf".data ∨ lower = "infinity".data then
      some (if negSign then .ninf else .inf)
    else if lower = "nan".data then some .nan
    else (parseF64Decimal body).map fun v => if negSign then v.neg else v

/-- `BinanceClient::parse_ticker_message`, taken after JSON decoding:
the `c` field is parsed as `f64` and the update is built from whatever
value comes back; a failed parse maps to the JSON error variant. -/
def parse_ticker_message (trading_pair : TradingPair) (now : Nat)
    (stream_data : StreamData) : Except BinanceError PriceUpdate :=
  match parseF64 stream_data.data.price with
  | some price => .ok (PriceUpdate.new .binance trading_pair price now)
  | none => .error .jsonError

/-- The options object of the `accountSubscribe` params
(src/websocket/solana.rs, `create_account_subscribe_message`). -/
structure AccountSubscribeOptions where
  encoding : String
  commitment : String
deriving DecidableEq, Repr

/-- The `params` array of the subscription request: the account
address followed by the options object. -/
structure AccountSubscribeParams where
  address : String
  options : AccountSubscribeOptions
deriving DecidableEq, Repr

/-- `AccountSubscribeRequest` (src/websocket/solana.rs). -/
structure AccountSubscribeRequest where
  jsonrpc : String
  id : Nat
  method : String
  params : AccountSubscribeParams
deriving DecidableEq, Repr

/-- `SolanaClient::get_pool_address`: hard-coded mainnet Raydium pool
addresses. -/
def get_pool_address : TradingPair → String
  | .solUsdt => "7XawhbbxtsRcQA8KTkHT9f9nc6d69UwqCDh6U5EEbEmX"
  | .solUsdc => "58oQChx4yWmvKdwLLZzBi4ChoCc2fqCUWBkwMihLYQo2"

/-- `SolanaClient::create_account_subscribe_message`: the configured
account address (or the pair's pool address) with encoding
`jsonParsed` and commitment `confirmed`. -/
def create_account_subscribe_message (account_address : Option String)
    (trading_pair : TradingPair) : AccountSubscribeRequest :=
  let address := account_address.getD (get_pool_address trading_pair)
  { jsonrpc := "2.0"
    id := 1
    method := "accountSubscribe"
    params :=
      { address
        options := { encoding := "jsonParsed", commitment := "confirmed" } } }

/-- `ReconnectError` (src/websocket/reconnect.rs). -/
inductive ReconnectError where
  | maxAttemptsExceeded (n : Nat)
  | connectionTimeout (d : Nat)
  | connectionError (msg : String)
deriving DecidableEq, Repr

/-- `ReconnectConfig` (src/websocket/reconnect.rs); durations in
milliseconds, the multiplier as an exact rational. -/
structure ReconnectConfig where
  initial_delay : Nat
  max_delay : Nat
  backoff_multiplier : ℚ
  max_attempts : Option Nat
  max_total_duration : Option Nat
  jitter : Bool
deriving DecidableEq, Repr

/-- `ReconnectConfig::validate`. -/
def ReconnectConfig.validate (c : ReconnectConfig) : Except String Unit :=
  if c.initial_delay = 0 then
    .error "Initial delay must be greater than zero"
  else if c.max_delay < c.initial_delay then
    .error "Max delay must be greater than or equal to initial delay"
  else if c.backoff_multiplier ≤ 1 then
    .error "Backoff multiplier must be greater than 1.0"
  else if c.max_attempts = some 0 then
    .error "Max attempts must be greater than zero if specified"
  else .ok ()

/-- Rust float-to-integer `as` cast toward zero: `Int.div` is
T-division, truncating the exact quotient toward zero. -/
def f64TruncToInt (q : ℚ) : Int :=
  Int.tdiv q.num (q.den : Int)

/-- Exact value of the Rust expression `(d as f64 * q) as u64` before
saturation: `d * q = (d * q.num) / q.den` exactly, truncated toward
zero (`Int.div` is T-division); `toNat` then realises the low
saturation of `as u64` for a negative product. -/
def natMulRatTrunc (d : Nat) (q : ℚ) : Int :=
  Int.tdiv ((d : Int) * q.num) (q.den : Int)

/-- `ReconnectHandler` (src/websocket/reconnect.rs); `start_time` is
an instant in milliseconds. -/
structure ReconnectHandler where
  config : ReconnectConfig
  attempt_count : Nat
  start_time : Option Nat
  current_delay : Nat
deriving DecidableEq, Repr

/-- `ReconnectHandler::new`. -/
def ReconnectHandler.new (config : ReconnectConfig) :
    Except String ReconnectHandler := do
  config.validate
  .ok
    { current_delay := config.initial_delay
      config
      attempt_count := 0
      start_time := none }

/-- `ReconnectHandler::update_delay`: multiply the current delay,
truncate to whole milliseconds and saturate (`as u64`), cap at
`max_delay`. -/
def ReconnectHandler.update_delay (h : ReconnectHandler) :
    ReconnectHandler :=
  let next_delay_ms :=
    min (natMulRatTrunc h.current_delay h.config.backoff_multiplier).toNat u64Max
  { h with current_delay := min next_delay_ms h.config.max_delay }

/-- `ReconnectHandler::add_jitter`: ±10% deterministic jitter.  The
std `DefaultHasher` is abstracted as the `hash` argument applied to
the attempt count. -/
def ReconnectHandler.add_jitter (hash : Nat → Nat) (h : ReconnectHandler)
    (delay : Nat) : Nat :=
  let hv := hash h.attempt_count
  let jitter_percent : ℚ := (((hv % 20 : Nat) : ℚ) - 10) / 100
  let jitter_ms : Int := f64TruncToInt ((delay : ℚ) * jitter_percent)
  (max ((delay : Int) + jitter_ms) 0).toNat

/-- `ReconnectHandler::calculate_delay`. -/
def ReconnectHandler.calculate_delay (hash : Nat → Nat)
    (h : ReconnectHandler) : Nat :=
  if h.config.jitter then h.add_jitter hash h.current_delay
  else h.current_delay

/-- Core of `should_reconnect` after the limit checks: count the
attempt, produce this attempt's delay, advance the backoff. -/
def ReconnectHandler.take_attempt (hash : Nat → Nat)
    (h : ReconnectHandler) : Nat × ReconnectHandler :=
  let h := { h with attempt_count := h.attempt_count + 1 }
  let delay := h.calculate_delay hash
  (delay, h.update_delay)

/-- The duration check and the successful tail of
`should_reconnect`. -/
def ReconnectHandler.should_reconnect_after_attempts
    (h : ReconnectHandler) (hash : Nat → Nat) (now : Nat) :
    Except ReconnectError Nat × ReconnectHandler :=
  match h.config.max_total_duration, h.start_time with
  | some max_duration, some start_time =>
    if now - start_time ≥ max_duration then
      (.error (.connectionTimeout max_duration), h)
    else
      let r := h.take_attempt hash
      (.ok r.1, r.2)
  | _, _ =>
    let r := h.take_attempt hash
    (.ok r.1, r.2)

/-- `ReconnectHandler::should_reconnect`.  The `&mut self` receiver is
made explicit: the updated handler is returned alongside the result
(also on failure, since the start time is recorded first). -/
def ReconnectHandler.should_reconnect (hash : Nat → Nat) (now : Nat)
    (h0 : ReconnectHandler) :
    Except ReconnectError Nat × ReconnectHandler :=
  let h := if h0.start_time = none then { h0 with start_time := some now } else h0
  match h.config.max_attempts with
  | some max_attempts =>
    if h.attempt_count ≥ max_attempts then
      (.error (.maxAttemptsExceeded max_attempts), h)
    else h.should_reconnect_after_attempts hash now
  | none => h.should_reconnect_after_attempts hash now

/-- Successive `should_reconnect` calls at the given instants,
threading the handler state. -/
def should_reconnect_seq (hash : Nat → Nat) (nows : List Nat)
    (h : ReconnectHandler) : List (Except ReconnectError Nat) :=
  match nows with
  | [] => []
  | now :: rest =>
    let r := h.should_reconnect hash now
    r.1 :: should_reconnect_seq hash rest r.2

/-- `DetectionStats` (src/arbitrage/detector.rs).  The `u64` counters
are modelled as `Nat` (the additions never wrap below 2^64 calls);
`uptime` and `last_check` are instants in milliseconds. -/
structure DetectionStats where
  total_checks : Nat
  opportunities_found : Nat
  threshold_opportunities : Nat
  best_opportunity : Option ArbitrageOpportunity
  average_spread : F64v
  uptime : Nat
  last_check : Option Nat
deriving DecidableEq, Repr

/-- `DetectionStats::default`. -/
def DetectionStats.default : DetectionStats :=
  { total_checks := 0
    opportunities_found := 0
    threshold_opportunities := 0
    best_opportunity := none
    average_spread := .fin 0
    uptime := 0
    last_check := none }

/-- `DetectionStats::update_check`: count the check and fold the
spread into the running average. -/
def DetectionStats.update_check (s : DetectionStats) (now : Nat)
    (spread_percentage : F64v) : DetectionStats :=
  let total_checks := s.total_checks + 1
  { s with
    total_checks
    last_check := some now
    average_spread :=
      if total_checks = 1 then spread_percentage
      else
        ((s.average_spread.mul (.fin ((total_checks - 1 : Nat) : ℚ))).add
          spread_percentage).div (.fin ((total_checks : Nat) : ℚ)) }

/-- `DetectionStats::update_opportunity`: count the opportunity, the
threshold hit when flagged, and keep the best by profit percentage. -/
def DetectionStats.update_opportunity (s : DetectionStats)
    (opportunity : ArbitrageOpportunity) (meets_threshold : Bool) :
    DetectionStats :=
  { s with
    opportunities_found := s.opportunities_found + 1
    threshold_opportunities :=
      if meets_threshold then s.threshold_opportunities + 1
      else s.threshold_opportunities
    best_opportunity :=
      match s.best_opportunity with
      | some best =>
        if F64v.ltb best.profit_percentage opportunity.profit_percentage then
          some opportunity
        else some best
      | none => some opportunity }

/-- One stats mutation performed by the detection loop
(src/arbitrage/detector.rs, `start_detection`). -/
inductive DetectorEvent where
  | check (now : Nat) (spread_percentage : F64v)
  | found (opportunity : ArbitrageOpportunity) (meets_threshold : Bool)

/-- Apply one loop event to the stats. -/
def DetectionStats.applyEvent (s : DetectionStats) :
    DetectorEvent → DetectionStats
  | .check now sp => s.update_check now sp
  | .found o m => s.update_opportunity o m

/-- Apply a sequence of loop events. -/
def DetectionStats.applyTrace (s : DetectionStats)
    (t : List DetectorEvent) : DetectionStats :=
  t.foldl DetectionStats.applyEvent s

/-- The event sequences `start_detection` can perform: each loop
iteration either records a check (`check_for_opportunities` on a
successful validation, possibly re-checking in the no-opportunity
branch) or records a check followed by the computed opportunity;
failed validations record nothing. -/
inductive DetectionLoopTrace : List DetectorEvent → Prop where
  | nil : DetectionLoopTrace []
  | check (t : List DetectorEvent) (now : Nat) (sp : F64v) :
      DetectionLoopTrace t → DetectionLoopTrace (t ++ [.check now sp])
  | found (t : List DetectorEvent) (now : Nat) (sp : F64v)
      (o : ArbitrageOpportunity) (m : Bool) :
      DetectionLoopTrace t →
      DetectionLoopTrace (t ++ [.check now sp, .found o m])

instance {e a : Type} [DecidableEq e] [DecidableEq a] :
    DecidableEq (Except e a) := fun x y =>
  match x, y with
  | .ok u, .ok v =>
    if h : u = v then isTrue (by rw [h]) else isFalse (by simp [h])
  | .error u, .error v =>
    if h : u = v then isTrue (by rw [h]) else isFalse (by simp [h])
  | .ok _, .error _ => isFalse (by simp)
  | .error _, .ok _ => isFalse (by simp)

/-- The reconnect policy of the spec's backoff scenario:
{initial 100 ms, max 1000 ms, multiplier 2, 5 attempts, no jitter}. -/
def backoffTestConfig : ReconnectConfig :=
  { initial_delay := 100, max_delay := 1000, backoff_multiplier := 2,
    max_attempts := some 5, max_total_duration := none, jitter := false }

/-- The freshly constructed handler for `backoffTestConfig`. -/
def backoffTestHandler : ReconnectHandler :=
  { config := backoffTestConfig, attempt_count := 0, start_time := none,
    current_delay := 100 }

/-- `backoffTestHandler` after one successful call at instant 0. -/
def backoffStepHandler : ReconnectHandler :=
  { config := backoffTestConfig, attempt_count := 1, start_time := some 0,
    current_delay := 200 }

/-- A handler for `backoffTestConfig` that has used all 5 attempts. -/
def backoffExhaustedHandler : ReconnectHandler :=
  { config := backoffTestConfig, attempt_count := 5, start_time := some 0,
    current_delay := 1000 }

/-- The opportunity of the happy-arbitrage scenario, used as a sample
event payload. -/
def sampleOpportunity : ArbitrageOpportunity :=
  { buy_source := .solana, sell_source := .binance, buy_price := .fin 190,
    sell_price := .fin 195, raw_profit_per_unit := .fin 5,
    net_profit_per_unit := .fin (4311/1000), profit_percentage := .fin (4311/1900),
    total_fees_per_unit := .fin (689/1000), trading_pair := .solUsdt,
    recommended_amount := .fin 10, estimated_total_profit := .fin (4311/100) }

/-- A two-event loop trace: one check followed by its opportunity. -/
def sampleLoopTrace : List DetectorEvent :=
  [.check 0 (.fin 1), .found sampleOpportunity true]

/-- The fallback price formula of the claim: quote reserve at offset
240 over base reserve at offset 232, at 6 and 9 decimals (division by
a zero base gives 0 in ℚ, which the bounds below reject). -/
def fallbackPrice (data : List Nat) : ℚ :=
  ((readU64LE data 240 : ℚ) / 10 ^ 6) / ((readU64LE data 232 : ℚ) / 10 ^ 9)

/-- A 703-byte all-zero blob: strict-decodes to a pool state with
status 0 and state 0, which is inactive. -/
def zeroPoolData : List Nat := List.replicate 703 0

/-- A ticker frame whose `c` field is the negative number string
`-1.0`. -/
def negTickerFrame : StreamData :=
  { stream := "solusdt@ticker",
    data := { symbol := "SOLUSDT", price := "-1.0", event_time := 1699123456789 } }

/-- The ticker frame of the repository's parsing test (`c` =
`195.50`). -/
def tickerFrame195 : StreamData :=
  { stream := "solusdt@ticker",
    data := { symbol := "SOLUSDT", price := "195.50", event_time := 1699123456789 } }

/-- The combined value-validation condition of
`validate_price_value`: finite, positive, and inside the hard-coded
range. -/
def valOkBool (p : F64v) : Bool :=
  !(!p.isFinite || p.leb (.fin 0)) && !(p.ltb (.fin 1) || (F64v.fin 10000).ltb p)

/-- Claim-level validity: the price is a finite value in the range
`[1, 10000]`. -/
def priceValueOk (p : F64v) : Prop :=
  ∃ q : ℚ, p = F64v.fin q ∧ 1 ≤ q ∧ q ≤ 10000

/-- A fresh Solana price of 50 (below the counterexample's configured
minimum bound of 100, but inside the hard-coded [1, 10000]). -/
def cxSolanaPrice : SourcePrice :=
  { price := .fin 50, source := .solana, timestamp := 0 }

/-- A fresh Binance price of 50. -/
def cxBinancePrice : SourcePrice :=
  { price := .fin 50, source := .binance, timestamp := 0 }

/-- A cache holding the two price-50 observations. -/
def cxCache : PriceCache :=
  { solana_price := some cxSolanaPrice, binance_price := some cxBinancePrice }

/-- A configuration whose price bounds are [100, 200]. -/
def cxConfig : Config :=
  { pair := .solUsdt, threshold := .fin (1/10), max_price_age_ms := 5000,
    price_bounds := { min_price := .fin 100, max_price := .fin 200 } }

/-! ## Theorems -/

/-- C1: with the default fees {cex 0.1%, dex 0.25%, gas 0.001, transfer 0}
and default trade amount 10, the validated pair Binance 195 / Solana 190
yields buy = dex, sell = cex, raw profit 5, net profit 4.311 per unit,
profit percentage 4311/1900 (≈ 2.269), recommended amount 10 and total
profit 43.11, all exact in the rational model. -/
theorem C1_happy_arbitrage_opportunity :
    FeeCalculator.default.calculate_opportunity
      (ValidatedPricePair.new
        { price := .fin 190, source := .solana, timestamp := 0 }
        { price := .fin 195, source := .binance, timestamp := 0 })
      .solUsdt =
    .ok (some
      { buy_source := .solana
        sell_source := .binance
        buy_price := .fin 190
        sell_price := .fin 195
        raw_profit_per_unit := .fin 5
        net_profit_per_unit := .fin (4311/1000)
        profit_percentage := .fin (4311/1900)
        total_fees_per_unit := .fin (689/1000)
        trading_pair := .solUsdt
        recommended_amount := .fin 10
        estimated_total_profit := .fin (4311/100) }) ∧
    |(4311 : ℚ) / 1900 - 2269 / 1000| < 1 / 1000 := by
  constructor
  · norm_num [FeeCalculator.default, FeeCalculator.calculate_opportunity,
      FeeCalculator.calculate_fee_breakdown, FeeCalculator.calculate_recommended_amount,
      TradingFees.default, TradingFees.get_trading_fee, ValidatedPricePair.new,
      ValidatedPricePair.get_price, F64v.ltb, F64v.leb, F64v.add, F64v.sub,
      F64v.mul, F64v.div, F64v.neg, F64v.abs]
  · rw [abs_sub_lt_iff]
    norm_num

/-- C10: a price observation timestamped in the future has age 0, so
it is never stale, for any freshness window including 0. -/
theorem C10_future_timestamp_never_stale (p : SourcePrice) (now max_age_ms : Nat)
    (h : now < p.timestamp) :
    p.age_ms now = 0 ∧ p.is_stale now max_age_ms = false := by
  have hle : ¬ p.timestamp ≤ now := by omega
  have hage : p.age_ms now = 0 := by
    simp [SourcePrice.age_ms, calculate_age_ms, hle, u64Max]
  refine ⟨hage, ?_⟩
  simp [SourcePrice.is_stale, hage]

/-- Witness for C10 at the concrete observation timestamped 5 with the
clock at 0 and a zero freshness window. -/
theorem C10_future_timestamp_never_stale_witness :
    (0 : Nat) < 5 ∧
    (SourcePrice.age_ms { price := .fin 1, source := .binance, timestamp := 5 } 0 = 0 ∧
      SourcePrice.is_stale { price := .fin 1, source := .binance, timestamp := 5 } 0 0 = false) :=
  ⟨by decide,
    C10_future_timestamp_never_stale
      { price := .fin 1, source := .binance, timestamp := 5 } 0 0 (by decide)⟩

lemma le_natMulRatTrunc_toNat (d : Nat) (q : ℚ) (hq : 1 ≤ q) :
    d ≤ (natMulRatTrunc d q).toNat := by
  have hdenq : (0 : ℚ) < (q.den : ℚ) := by exact_mod_cast q.pos
  have hnum : (q.den : Int) ≤ q.num := by
    rw [← Rat.num_div_den q, le_div_iff₀ hdenq, one_mul] at hq
    exact_mod_cast hq
  have hden : (0 : Int) < (q.den : Int) := by exact_mod_cast q.pos
  have hmul : (d : Int) * (q.den : Int) ≤ (d : Int) * q.num :=
    mul_le_mul_of_nonneg_left hnum (by positivity)
  have htd : natMulRatTrunc d q = ((d : Int) * q.num) / (q.den : Int) := by
    unfold natMulRatTrunc
    exact Int.tdiv_eq_ediv (by positivity) (by positivity)
  have hstep : (d : Int) ≤ ((d : Int) * q.num) / (q.den : Int) := by
    calc (d : Int) = (d : Int) * (q.den : Int) / (q.den : Int) := by
            rw [Int.mul_ediv_cancel _ (by omega)]
      _ ≤ ((d : Int) * q.num) / (q.den : Int) :=
            Int.ediv_le_ediv hden hmul
  calc d = ((d : Int)).toNat := by simp
    _ ≤ (((d : Int) * q.num) / (q.den : Int)).toNat := Int.toNat_le_toNat hstep
    _ = (natMulRatTrunc d q).toNat := by rw [htd]

lemma should_reconnect_ok_shape (hash : Nat → Nat) (now : Nat)
    (h h2 : ReconnectHandler) (d : Nat)
    (hjit : h.config.jitter = false)
    (heq : h.should_reconnect hash now = (.ok d, h2)) :
    d = h.current_delay ∧
    h2.current_delay =
      min (min (natMulRatTrunc d h.config.backoff_multiplier).toNat u64Max)
        h.config.max_delay ∧
    h2.config = h.config ∧ h2.attempt_count = h.attempt_count + 1 := by
  unfold ReconnectHandler.should_reconnect at heq
  set h1 := if h.start_time = none then { h with start_time := some now } else h with hh1
  have hcfg : h1.config = h.config := by rw [hh1]; split <;> rfl
  have hcd : h1.current_delay = h.current_delay := by rw [hh1]; split <;> rfl
  have hac : h1.attempt_count = h.attempt_count := by rw [hh1]; split <;> rfl
  have main : ∀ st : Option Nat, h1.start_time = st →
      h1.should_reconnect_after_attempts hash now = (.ok d, h2) →
      d = h.current_delay ∧
      h2.current_delay =
        min (min (natMulRatTrunc d h.config.backoff_multiplier).toNat u64Max)
          h.config.max_delay ∧
      h2.config = h.config ∧ h2.attempt_count = h.attempt_count + 1 := by
    intro st hst heq2
    unfold ReconnectHandler.should_reconnect_after_attempts at heq2
    rcases hmd : h1.config.max_total_duration with _ | dur <;>
      rcases hst2 : h1.start_time with _ | stv <;>
      simp only [hmd, hst2] at heq2
    case none.none | none.some | some.none =>
      simp only [ReconnectHandler.take_attempt, ReconnectHandler.calculate_delay,
        ReconnectHandler.update_delay, hcfg, hjit, if_false,
        Bool.false_eq_true] at heq2
      obtain ⟨hd, hh⟩ := Prod.mk.injEq .. |>.mp heq2
      injection hd with hd2
      subst hd2
      subst hh
      simp [hcd, hac]
    case some.some =>
      split at heq2
      · exact absurd (Prod.mk.injEq .. |>.mp heq2).1 (by simp)
      · simp only [ReconnectHandler.take_attempt, ReconnectHandler.calculate_delay,
          ReconnectHandler.update_delay, hcfg, hjit, if_false,
          Bool.false_eq_true] at heq2
        obtain ⟨hd, hh⟩ := Prod.mk.injEq .. |>.mp heq2
        injection hd with hd2
        subst hd2
        subst hh
        simp [hcd, hac]
  rcases hma : h1.config.max_attempts with _ | m <;>
    simp only [hma] at heq
  · exact main h1.start_time rfl heq
  · split at heq
    · exact absurd (Prod.mk.injEq .. |>.mp heq).1 (by simp)
    · exact main h1.start_time rfl heq


lemma should_reconnect_exhausted_shape (hash : Nat → Nat) (now : Nat)
    (h : ReconnectHandler) (m : Nat)
    (hma : h.config.max_attempts = some m) (hge : m ≤ h.attempt_count) :
    (h.should_reconnect hash now).1 = .error (.maxAttemptsExceeded m) := by
  unfold ReconnectHandler.should_reconnect
  set h1 := if h.start_time = none then { h with start_time := some now } else h with hh1
  have hcfg : h1.config = h.config := by rw [hh1]; split <;> rfl
  have hac : h1.attempt_count = h.attempt_count := by rw [hh1]; split <;> rfl
  simp [hcfg, hma, hac, hge]

/-- C4: with jitter disabled, every successful `next_delay` call
returns the current delay and advances it to
`min(current * multiplier, max_delay)` (truncated to whole ms), so
successive returns are non-decreasing and bounded by `max_delay`; once
`max_attempts` attempts are used the next call fails with the
exhaustion error; for {initial 100 ms, max 1000 ms, multiplier 2,
5 attempts} the returns are 100, 200, 400, 800, 1000, then
`MaxAttemptsExceeded 5`. -/
theorem C4_reconnect_backoff :
    (∀ (hash : Nat → Nat) (now : Nat) (h h2 : ReconnectHandler) (d : Nat),
      h.config.jitter = false →
      1 ≤ h.config.backoff_multiplier →
      h.current_delay ≤ h.config.max_delay →
      h.config.max_delay ≤ u64Max →
      h.should_reconnect hash now = (.ok d, h2) →
      d = h.current_delay ∧
      h2.current_delay =
        min (min (natMulRatTrunc d h.config.backoff_multiplier).toNat u64Max)
          h.config.max_delay ∧
      d ≤ h2.current_delay ∧ d ≤ h.config.max_delay ∧
      h2.current_delay ≤ h.config.max_delay ∧ h2.config = h.config) ∧
    (∀ (hash : Nat → Nat) (now : Nat) (h : ReconnectHandler) (m : Nat),
      h.config.max_attempts = some m → m ≤ h.attempt_count →
      (h.should_reconnect hash now).1 = .error (.maxAttemptsExceeded m)) ∧
    (∀ hash : Nat → Nat,
      should_reconnect_seq hash [0, 0, 0, 0, 0, 0] backoffTestHandler =
        [.ok 100, .ok 200, .ok 400, .ok 800, .ok 1000,
         .error (.maxAttemptsExceeded 5)]) := by
  refine ⟨?_, ?_, ?_⟩
  · intro hash now h h2 d hjit hmul hcur hmax heq
    obtain ⟨hd, hcd2, hcfg2, _⟩ := should_reconnect_ok_shape hash now h h2 d hjit heq
    have hdt : d ≤ (natMulRatTrunc d h.config.backoff_multiplier).toNat :=
      le_natMulRatTrunc_toNat d _ hmul
    have hdm : d ≤ h.config.max_delay := hd ▸ hcur
    have hdu : d ≤ u64Max := le_trans hdm hmax
    refine ⟨hd, hcd2, ?_, hdm, ?_, hcfg2⟩
    · rw [hcd2]
      exact le_min (le_min hdt hdu) hdm
    · rw [hcd2]
      exact min_le_right _ _
  · exact should_reconnect_exhausted_shape
  · intro hash
    simp [should_reconnect_seq, ReconnectHandler.should_reconnect,
      ReconnectHandler.should_reconnect_after_attempts, ReconnectHandler.take_attempt,
      ReconnectHandler.calculate_delay, ReconnectHandler.update_delay,
      backoffTestHandler, backoffTestConfig, natMulRatTrunc, u64Max]

/-- Witness for C4: the first call of the scenario handler, a
handler with its five attempts used, and the full concrete
sequence. -/
theorem C4_reconnect_backoff_witness :
    ((100 = backoffTestHandler.current_delay ∧
      backoffStepHandler.current_delay =
        min (min (natMulRatTrunc 100 backoffTestConfig.backoff_multiplier).toNat u64Max)
          backoffTestConfig.max_delay ∧
      100 ≤ backoffStepHandler.current_delay ∧ 100 ≤ backoffTestConfig.max_delay ∧
      backoffStepHandler.current_delay ≤ backoffTestConfig.max_delay ∧
      backoffStepHandler.config = backoffTestConfig) ∧
    ((backoffExhaustedHandler.should_reconnect (fun _ => 0) 0).1 =
      .error (.maxAttemptsExceeded 5)) ∧
    (should_reconnect_seq (fun _ => 0) [0, 0, 0, 0, 0, 0] backoffTestHandler =
      [.ok 100, .ok 200, .ok 400, .ok 800, .ok 1000,
       .error (.maxAttemptsExceeded 5)])) :=
  ⟨C4_reconnect_backoff.1 (fun _ => 0) 0 backoffTestHandler backoffStepHandler 100
      rfl (by norm_num [backoffTestHandler, backoffTestConfig]) (by decide) (by decide)
      (by simp [ReconnectHandler.should_reconnect,
        ReconnectHandler.should_reconnect_after_attempts,
        ReconnectHandler.take_attempt, ReconnectHandler.calculate_delay,
        ReconnectHandler.update_delay, backoffTestHandler, backoffStepHandler,
        backoffTestConfig, natMulRatTrunc, u64Max]),
   C4_reconnect_backoff.2.1 (fun _ => 0) 0 backoffExhaustedHandler 5 rfl
      (by decide),
   C4_reconnect_backoff.2.2 (fun _ => 0)⟩

/-- Folding a trace distributes over append. -/
lemma applyTrace_append (s : DetectionStats) (t l : List DetectorEvent) :
    s.applyTrace (t ++ l) = (s.applyTrace t).applyTrace l := by
  simp [DetectionStats.applyTrace, List.foldl_append]

/-- C9: in every stats state reachable by the detection loop's
update discipline (each opportunity update follows the check that
produced it), `threshold_opportunities ≤ opportunities_found ≤
total_checks`. -/
theorem C9_detector_counter_invariant (t : List DetectorEvent)
    (ht : DetectionLoopTrace t) :
    (DetectionStats.default.applyTrace t).threshold_opportunities ≤
      (DetectionStats.default.applyTrace t).opportunities_found ∧
    (DetectionStats.default.applyTrace t).opportunities_found ≤
      (DetectionStats.default.applyTrace t).total_checks := by
  induction ht with
  | nil => simp [DetectionStats.applyTrace, DetectionStats.default]
  | check t now sp _ ih =>
    rw [applyTrace_append]
    simp only [DetectionStats.applyTrace, List.foldl_cons, List.foldl_nil,
      DetectionStats.applyEvent, DetectionStats.update_check]
    exact ⟨ih.1, le_trans ih.2 (Nat.le_succ _)⟩
  | found t now sp o m _ ih =>
    rw [applyTrace_append]
    simp only [DetectionStats.applyTrace] at ih ⊢
    simp only [List.foldl_cons, List.foldl_nil, DetectionStats.applyEvent,
      DetectionStats.update_check, DetectionStats.update_opportunity]
    cases m <;> simp only [Bool.false_eq_true, if_true, if_false,
      reduceIte] <;> constructor <;> omega

/-- Witness for C9 on the concrete two-event trace. -/
theorem C9_detector_counter_invariant_witness :
    DetectionLoopTrace sampleLoopTrace ∧
    ((DetectionStats.default.applyTrace sampleLoopTrace).threshold_opportunities ≤
      (DetectionStats.default.applyTrace sampleLoopTrace).opportunities_found ∧
    (DetectionStats.default.applyTrace sampleLoopTrace).opportunities_found ≤
      (DetectionStats.default.applyTrace sampleLoopTrace).total_checks) := by
  have htr : DetectionLoopTrace sampleLoopTrace := by
    have h0 := DetectionLoopTrace.found [] 0 (.fin 1) sampleOpportunity true
      DetectionLoopTrace.nil
    simpa [sampleLoopTrace] using h0
  exact ⟨htr, C9_detector_counter_invariant sampleLoopTrace htr⟩

/-- The repository's fallback fixture decodes to a price-200 update
(shared by the fallback and active-pool theorems below). -/
lemma mockPoolData_decode_eq :
    extract_price_from_account_data .solUsdt 0 mockPoolData =
      .ok (PriceUpdate.new .solana .solUsdt (.fin 200) 0) := by
  have h232 : readU64LE mockPoolData 232 = 1000000000000000 := by decide
  have h240 : readU64LE mockPoolData 240 = 200000000000000 := by decide
  have hlen : mockPoolData.length = 400 := by decide
  simp only [extract_price_from_account_data, raydiumTryFromSlice, hlen]
  norm_num
  simp only [extract_price_from_raw_data, hlen, h232, h240]
  norm_num [PriceUpdate.new]

/-- C3: when strict decode fails, a blob under 400 bytes is a parse
error; otherwise the update exists exactly when the offset-232/240
reserve price at the 9/6 decimal convention lies in [10, 1000], and it
carries that price; the 400-byte fixture with reserves 10^15 and
2·10^14 yields price 200. -/
theorem C3_fallback_pool_decode :
    (∀ (tp : TradingPair) (now : Nat) (data : List Nat),
      raydiumTryFromSlice data = none →
      (data.length < 400 →
        extract_price_from_account_data tp now data =
          .error (.poolParsingError "Account data too short for pool state")) ∧
      (400 ≤ data.length →
        ∀ u : PriceUpdate,
          (extract_price_from_account_data tp now data = .ok u ↔
            (10 ≤ fallbackPrice data ∧ fallbackPrice data ≤ 1000 ∧
              u = PriceUpdate.new .solana tp (.fin (fallbackPrice data)) now)))) ∧
    extract_price_from_account_data .solUsdt 0 mockPoolData =
      .ok (PriceUpdate.new .solana .solUsdt (.fin 200) 0) := by
  constructor
  · intro tp now data hnone
    constructor
    · intro hlt
      simp [extract_price_from_account_data, hnone,
        extract_price_from_raw_data, hlt]
    · intro hge u
      have hnlt : ¬ data.length < 400 := by omega
      have hnlt2 : ¬ data.length < 240 + 8 := by omega
      simp only [extract_price_from_account_data, hnone]
      simp only [extract_price_from_raw_data, if_neg hnlt, if_neg hnlt2]
      by_cases hb : readU64LE data 232 = 0
      · simp [hb, fallbackPrice]
      · have hbq : ((readU64LE data 232 : Nat) : ℚ) / 10 ^ 9 ≠ 0 := by
          rw [div_ne_zero_iff]
          constructor
          · exact_mod_cast hb
          · norm_num
        by_cases hp : fallbackPrice data < 10 ∨ fallbackPrice data > 1000
        · cases tp <;>
            simp only [if_neg hb, if_neg hbq, fallbackPrice] at hp ⊢ <;>
            simp [hp] <;>
            intro h10 h1000 <;>
            rcases hp with hp | hp <;> linarith
        · push_neg at hp
          cases tp <;>
            simp only [if_neg hb, if_neg hbq, fallbackPrice] at hp ⊢ <;>
            rw [if_neg (by push_neg; exact hp)] <;>
            simp [hp.1, hp.2, eq_comm, fallbackPrice]
  · exact mockPoolData_decode_eq

/-- Witness for C3: a 10-byte blob fails strict decode and is
rejected as too short. -/
theorem C3_fallback_pool_decode_witness :
    raydiumTryFromSlice (List.replicate 10 0) = none ∧
    extract_price_from_account_data .solUsdt 0 (List.replicate 10 0) =
      .error (.poolParsingError "Account data too short for pool state") :=
  ⟨by decide,
   (C3_fallback_pool_decode.1 .solUsdt 0 (List.replicate 10 0)
      (by decide)).1 (by decide)⟩

/-- C5 counterexample: the 400-byte fixture blob describes an inactive
pool (its status field at offset 0 is 0, not 6), yet the decoder
produces a price-200 update through the fallback path, which never
checks the status or state fields. -/
theorem C5_counterexample_inactive_fallback_update :
    readU64LE mockPoolData 0 ≠ 6 ∧
    extract_price_from_account_data .solUsdt 0 mockPoolData =
      .ok (PriceUpdate.new .solana .solUsdt (.fin 200) 0) :=
  ⟨by decide, mockPoolData_decode_eq⟩

/-- C5 (amended): when the pool data strictly deserializes as the full
pool state (the 703-byte Borsh layout) and that state is inactive, the
decoder returns an error and no update is produced, regardless of the
reserves. -/
theorem C5_strict_decode_inactive_pool_error (tp : TradingPair) (now : Nat)
    (data : List Nat) (ps : RaydiumPoolState)
    (hdec : raydiumTryFromSlice data = some ps)
    (hina : ps.is_active = false) :
    extract_price_from_account_data tp now data =
      .error (.poolParsingError "Pool is not active") := by
  simp [extract_price_from_account_data, hdec, hina]

/-- Witness for C5 on the all-zero 703-byte blob. -/
theorem C5_strict_decode_inactive_pool_error_witness :
    raydiumTryFromSlice zeroPoolData =
      some { status := 0, base_decimals := 0, quote_decimals := 0,
             state := 0, pool_base_token_amount := 0,
             pool_quote_token_amount := 0 } ∧
    extract_price_from_account_data .solUsdt 0 zeroPoolData =
      .error (.poolParsingError "Pool is not active") :=
  ⟨by decide,
   C5_strict_decode_inactive_pool_error .solUsdt 0 zeroPoolData
     { status := 0, base_decimals := 0, quote_decimals := 0, state := 0,
       pool_base_token_amount := 0, pool_quote_token_amount := 0 }
     (by decide) (by decide)⟩

/-- C6 counterexample: the frame whose `c` is `-1.0` parses to the
non-positive value −1, yet the feed constructs a PriceUpdate with
price −1 instead of failing. -/
theorem C6_counterexample_negative_price_accepted :
    parseF64 "-1.0" = some (.fin (-1)) ∧
    parse_ticker_message .solUsdt 0 negTickerFrame =
      .ok (PriceUpdate.new .binance .solUsdt (.fin (-1)) 0) := by
  have h : parseF64 "-1.0" = some (.fin (-(1 + 0 / 10 ^ 1))) := by rfl
  have h1 : parseF64 "-1.0" = some (.fin (-1)) := by rw [h]; norm_num
  exact ⟨h1, by simp [parse_ticker_message, negTickerFrame, h1]⟩

/-- C6 (amended): the feed constructs a PriceUpdate exactly when `c`
parses as an `f64` — any parsed value is accepted, including
non-positive and non-finite ones — and on success the update carries
the parsed price with source Binance and the feed's pair; only a
failed parse is an error. -/
theorem C6_ticker_parse_builds_update (tp : TradingPair) (now : Nat)
    (sd : StreamData) :
    ((∃ u, parse_ticker_message tp now sd = .ok u) ↔
      (parseF64 sd.data.price).isSome) ∧
    (∀ v, parseF64 sd.data.price = some v →
      parse_ticker_message tp now sd = .ok (PriceUpdate.new .binance tp v now)) ∧
    (parseF64 sd.data.price = none →
      parse_ticker_message tp now sd = .error .jsonError) := by
  rcases h : parseF64 sd.data.price with _ | v <;>
    simp [parse_ticker_message, h]

/-- Witness for C6 on the repository's test frame (`c` = 195.50). -/
theorem C6_ticker_parse_builds_update_witness :
    parseF64 "195.50" = some (.fin (391 / 2)) ∧
    parse_ticker_message .solUsdt 3 tickerFrame195 =
      .ok (PriceUpdate.new .binance .solUsdt (.fin (391 / 2)) 3) := by
  have h : parseF64 "195.50" = some (.fin ((195 : ℚ) + 50 / 10 ^ 2)) := by rfl
  have h1 : parseF64 "195.50" = some (.fin (391 / 2)) := by rw [h]; norm_num
  exact ⟨h1,
    (C6_ticker_parse_builds_update .solUsdt 3 tickerFrame195).2.1 _ h1⟩

/-- C7 counterexample: the outbound accountSubscribe options carry
encoding `jsonParsed`, not `base64`. -/
theorem C7_counterexample_encoding_not_base64 :
    (create_account_subscribe_message none .solUsdt).params.options.encoding =
      "jsonParsed" ∧
    (create_account_subscribe_message none .solUsdt).params.options.encoding ≠
      "base64" :=
  ⟨rfl, by decide⟩

/-- C7 (amended): for every configured address and pair, the outbound
request is a JSON-RPC 2.0 `accountSubscribe` whose params are the pool
address (the configured one, or the pair's hard-coded pool) followed
by an options object with encoding `jsonParsed` and commitment
`confirmed`. -/
theorem C7_account_subscribe_message_shape
    (account_address : Option String) (tp : TradingPair) :
    create_account_subscribe_message account_address tp =
      { jsonrpc := "2.0", id := 1, method := "accountSubscribe",
        params :=
          { address := account_address.getD (get_pool_address tp),
            options :=
              { encoding := "jsonParsed", commitment := "confirmed" } } } ∧
    (create_account_subscribe_message none tp).params.address =
      get_pool_address tp :=
  ⟨rfl, rfl⟩

/-- C8 counterexample: the subscribed stream name is the lowercased
symbol `solusdt@ticker`, not the claimed uppercase `SOLUSDT@ticker`. -/
theorem C8_counterexample_lowercase_stream :
    create_subscribe_message .solUsdt =
      { method := "SUBSCRIBE", params := ["solusdt@ticker"], id := 1 } ∧
    ("solusdt@ticker" : String) ≠ "SOLUSDT@ticker" :=
  ⟨by decide, by decide⟩

/-- C8 (amended): the subscribe frame is
`{method SUBSCRIBE, params [<symbol lowercased>@ticker], id 1}`, with
`solusdt@ticker` for SolUsdt and `solusdc@ticker` for SolUsdc. -/
theorem C8_subscribe_message_lowercase :
    (∀ tp : TradingPair,
      create_subscribe_message tp =
        { method := "SUBSCRIBE",
          params := [stringToLower (trading_pair_to_binance_symbol tp) ++ "@ticker"],
          id := 1 }) ∧
    create_subscribe_message .solUsdt =
      { method := "SUBSCRIBE", params := ["solusdt@ticker"], id := 1 } ∧
    create_subscribe_message .solUsdc =
      { method := "SUBSCRIBE", params := ["solusdc@ticker"], id := 1 } :=
  ⟨fun _ => rfl, by decide, by decide⟩

/-- The boolean validity check agrees with the claim-level
predicate. -/
lemma valOkBool_iff (p : F64v) : valOkBool p = true ↔ priceValueOk p := by
  cases p <;>
    simp [valOkBool, priceValueOk, F64v.isFinite, F64v.leb, F64v.ltb]
  case fin q =>
    intro h1 _
    linarith

/-- `validate_price_value` collapses to the combined condition (both
rejection branches carry the same error). -/
lemma validate_price_value_eq (proc : PriceProcessor) (sp : SourcePrice) :
    proc.validate_price_value sp =
      if valOkBool sp.price then .ok () else .error (.invalidPrice sp.price) := by
  unfold PriceProcessor.validate_price_value valOkBool
  by_cases h1 : (!sp.price.isFinite || sp.price.leb (.fin 0)) = true <;>
    by_cases h2 : (sp.price.ltb (.fin 1) || (F64v.fin 10000).ltb sp.price) = true <;>
    simp [h1, h2]

/-- Case normal form of `get_validated_prices` on a full cache. -/
lemma gvp_cases (s b : SourcePrice) (M now : Nat) :
    (PriceProcessor.mk ⟨some s, some b⟩ M true).get_validated_prices now =
      (if s.age_ms now > M then .error (.staleData (s.age_ms now) M)
       else if b.age_ms now > M then .error (.staleData (b.age_ms now) M)
       else if valOkBool s.price = false then .error (.invalidPrice s.price)
       else if valOkBool b.price = false then .error (.invalidPrice b.price)
       else .ok (ValidatedPricePair.new s b)) := by
  by_cases h1 : s.age_ms now > M <;> by_cases h2 : b.age_ms now > M <;>
    by_cases h3 : valOkBool s.price <;> by_cases h4 : valOkBool b.price <;>
    simp [PriceProcessor.get_validated_prices, PriceCache.get_both_prices,
      PriceProcessor.validate_price_freshness, validate_price_value_eq,
      h1, h2, h3, h4, Except.instMonad, Except.bind]


/-- Negated form of `valOkBool_iff`. -/
lemma valOkBool_false_iff (p : F64v) : valOkBool p = false ↔ ¬ priceValueOk p := by
  rw [← valOkBool_iff]
  cases valOkBool p <;> simp

/-- C2 (amended): `get_validated_prices` fails with NoFreshData iff a
slot is empty, with Stale iff a price's age exceeds `max_age`, with
InvalidPrice iff both are fresh and one is non-finite, non-positive or
outside the HARD-CODED bounds [1, 10000] (the configured
`price_bounds` are never consulted), and otherwise returns the pair
built from the two slot values. -/
theorem C2_validator_hard_coded_bounds (cache : PriceCache) (cfg : Config)
    (now : Nat) :
    ((PriceProcessor.new cache cfg).get_validated_prices now =
        .error .noFreshData ↔
      (cache.solana_price = none ∨ cache.binance_price = none)) ∧
    (∀ s b : SourcePrice,
      cache.solana_price = some s → cache.binance_price = some b →
      ((∃ a m, (PriceProcessor.new cache cfg).get_validated_prices now =
          .error (.staleData a m)) ↔
        (s.age_ms now > cfg.max_price_age_ms ∨
          b.age_ms now > cfg.max_price_age_ms)) ∧
      ((∃ p, (PriceProcessor.new cache cfg).get_validated_prices now =
          .error (.invalidPrice p)) ↔
        (s.age_ms now ≤ cfg.max_price_age_ms ∧
          b.age_ms now ≤ cfg.max_price_age_ms ∧
          (¬ priceValueOk s.price ∨ ¬ priceValueOk b.price))) ∧
      ((PriceProcessor.new cache cfg).get_validated_prices now =
          .ok (ValidatedPricePair.new s b) ↔
        (s.age_ms now ≤ cfg.max_price_age_ms ∧
          b.age_ms now ≤ cfg.max_price_age_ms ∧
          priceValueOk s.price ∧ priceValueOk b.price))) := by
  obtain ⟨cs, cb⟩ := cache
  constructor
  · rcases cs with _ | s <;> rcases cb with _ | b
    · simp [PriceProcessor.new, PriceProcessor.get_validated_prices,
        PriceCache.get_both_prices]
    · simp [PriceProcessor.new, PriceProcessor.get_validated_prices,
        PriceCache.get_both_prices]
    · simp [PriceProcessor.new, PriceProcessor.get_validated_prices,
        PriceCache.get_both_prices]
    · rw [show PriceProcessor.new ⟨some s, some b⟩ cfg =
          PriceProcessor.mk ⟨some s, some b⟩ cfg.max_price_age_ms true from rfl,
        gvp_cases]
      split_ifs <;> simp
  · intro s b hs hb
    subst hs
    subst hb
    rw [show PriceProcessor.new ⟨some s, some b⟩ cfg =
        PriceProcessor.mk ⟨some s, some b⟩ cfg.max_price_age_ms true from rfl,
      gvp_cases]
    refine ⟨?_, ?_, ?_⟩ <;>
      split_ifs with h1 h2 h3 h4 <;>
      simp_all [valOkBool_false_iff, valOkBool_iff]


/-- C2 counterexample: with configured bounds [100, 200] and both
prices 50 — outside those bounds — the claim demands an InvalidPrice
failure, but validation succeeds: the processor ignores the configured
bounds. -/
theorem C2_counterexample_configured_bounds_ignored :
    (PriceProcessor.new cxCache cxConfig).get_validated_prices 0 =
      .ok (ValidatedPricePair.new cxSolanaPrice cxBinancePrice) ∧
    F64v.ltb cxSolanaPrice.price cxConfig.price_bounds.min_price = true := by
  constructor
  · rw [show PriceProcessor.new cxCache cxConfig =
        PriceProcessor.mk ⟨some cxSolanaPrice, some cxBinancePrice⟩ 5000 true
        from rfl, gvp_cases]
    have hv : valOkBool (.fin 50) = true := by decide
    simp [cxSolanaPrice, cxBinancePrice, SourcePrice.age_ms,
      calculate_age_ms, u64Max, hv]
  · decide

/-- Witness for C2 at the concrete cache and configuration. -/
theorem C2_validator_hard_coded_bounds_witness :
    (PriceProcessor.new cxCache cxConfig).get_validated_prices 0 =
      .ok (ValidatedPricePair.new cxSolanaPrice cxBinancePrice) :=
  ((C2_validator_hard_coded_bounds cxCache cxConfig 0).2 cxSolanaPrice
      cxBinancePrice rfl rfl).2.2.mpr
    ⟨by decide, by decide, ⟨50, rfl, by norm_num⟩, ⟨50, rfl, by norm_num⟩⟩
